import Mathlib

/-!
Shallow embedding of the GCP Data Catalog proxy
(metadata_service/proxy/gcp_data_catalog_proxy.py) and proofs about it.

Conventions of the embedding:
- Python strings are Lean `String` (a list of characters); regular
  expressions of the source are translated into explicit backtracking
  matchers over `List Char` that reproduce the greedy or lazy behaviour
  of each quantifier, the fact that a dot does not match a newline, and
  the behaviour of the dollar anchor (matching at the end of the input
  or just before one final newline).
- Python dictionaries are association lists in insertion order;
  assignment to an existing key overwrites in place, a new key is
  appended at the end.
- Code that can raise returns `Except PyErr`; a bare Python `return`
  falling off the end of a function is `Option.none` in the result.
- The external catalog client is a record of abstract functions.
-/

namespace GCPDataCatalog

/-- Python exception outcomes that the translated code can produce. -/
inductive PyErr : Type where
  | keyError (key : String)
  | valueError
  | indexError
  | notImplementedError
  | typeError
  | attributeError
  | clientError (msg : String)
deriving DecidableEq, Repr

deriving instance DecidableEq for Except

/-- Python dict assignment `d[k] = v`: overwrite in place when the key
exists, append otherwise. -/
def dictInsert (d : List (String × String)) (k v : String) : List (String × String) :=
  if d.any (fun kv => kv.1 = k) then
    d.map (fun kv => if kv.1 = k then (k, v) else kv)
  else d ++ [(k, v)]

/-- Python dict read `d[k]`: the value, or a KeyError. -/
def dictGet (d : List (String × String)) (k : String) : Except PyErr String :=
  match d.find? (fun kv => kv.1 = k) with
  | some kv => Except.ok kv.2
  | none => Except.error (PyErr.keyError k)

/-- Python list indexing `l[i]` with negative-index support; IndexError
when out of range. -/
def pyIdx {α : Type} (l : List α) (i : Int) : Except PyErr α :=
  let j : Int := if i < 0 then i + l.length else i
  if j < 0 then Except.error PyErr.indexError
  else
    match l.get? j.toNat with
    | some a => Except.ok a
    | none => Except.error PyErr.indexError

/-- Python string comparison: lexicographic by code point. -/
def pyStrLtList : List Char → List Char → Bool
  | [], [] => false
  | [], _ :: _ => true
  | _ :: _, [] => false
  | a :: as, b :: bs =>
    if a.val < b.val then true
    else if b.val < a.val then false
    else pyStrLtList as bs

def pyStrLt (a b : String) : Bool := pyStrLtList a.data b.data

/-- Stable insertion used to model Python `sorted` on (key, value)
pairs with pairwise-distinct keys: an element is placed before the
first existing element that is not strictly below it. -/
def insertPairSorted (x : String × String) : List (String × String) → List (String × String)
  | [] => [x]
  | y :: ys => if pyStrLt y.1 x.1 then y :: insertPairSorted x ys else x :: y :: ys

/-- Python `sorted(d.items())` for a dict with distinct keys. -/
def pySortPairs : List (String × String) → List (String × String)
  | [] => []
  | x :: xs => insertPairSorted x (pySortPairs xs)

def chStr (l : List Char) : String := String.mk l

/-- No newline in the list: the region a regex dot can cross. -/
def noNL (l : List Char) : Bool := l.all (fun c => c ≠ '\n')

/-! ### The URI grammar of `_extract_info_from_uri`

Pattern (verbose mode): lazy entity up to the literal `://`, greedy
cluster up to a literal dot, lazy db up to a slash, lazy name up to the
dollar anchor. -/

/-- Tail group `(?P<name>.*?)$`: the name is everything up to the end,
or up to one final newline; an interior newline makes the match fail. -/
def nameTail : List Char → Option (List Char)
  | [] => some []
  | c :: rest =>
    if c = '\n' then (if rest = [] then some [] else none)
    else (nameTail rest).map (fun n => c :: n)

/-- Groups `(?P<db>.*?)\/(?P<name>.*?)$`: lazy db, so the split is at
the first slash whose remainder completes the match. -/
def dbSplit : List Char → Option (List Char × List Char)
  | [] => none
  | c :: rest =>
    match (if c = '/' then nameTail rest else none) with
    | some n => some ([], n)
    | none =>
      if c = '\n' then none
      else (dbSplit rest).map (fun p => (c :: p.1, p.2))

/-- Groups `(?P<cluster>.*)\.` followed by db and name: greedy cluster,
so extension is preferred and the literal dot is the fallback. -/
def clusterSplit : List Char → Option (List Char × List Char × List Char)
  | [] => none
  | c :: rest =>
    match (if c = '\n' then none
           else (clusterSplit rest).map (fun q => (c :: q.1, q.2.1, q.2.2))) with
    | some q => some q
    | none =>
      match (if c = '.' then dbSplit rest else none) with
      | some p => some ([], p.1, p.2)
      | none => none

def startSlashSlash : List Char → Bool
  | '/' :: '/' :: _ => true
  | _ => false

/-- Whole pattern of `_extract_info_from_uri`: lazy entity, so the
scheme separator is tried at the current position first and the entity
is extended only on failure of the remainder. -/
def uriSplit : List Char → Option (List Char × List Char × List Char × List Char)
  | [] => none
  | c :: rest =>
    match (if c = ':' && startSlashSlash rest then clusterSplit (rest.drop 2) else none) with
    | some q => some ([], q.1, q.2.1, q.2.2)
    | none =>
      if c = '\n' then none
      else (uriSplit rest).map (fun q => (c :: q.1, q.2.1, q.2.2.1, q.2.2.2))

/-- Whether the literal `://` occurs anywhere in the list. -/
def hasSchemeSep : List Char → Bool
  | [] => false
  | c :: rest => (c = ':' && startSlashSlash rest) || hasSchemeSep rest

/-- Translation of `GCPDataCatalogProxy._extract_info_from_uri`: the
group dictionary on a match, the empty dictionary otherwise. -/
def extract_info_from_uri (table_uri : String) : List (String × String) :=
  match uriSplit table_uri.data with
  | some q =>
    [("entity", chStr q.1), ("cluster", chStr q.2.1),
     ("db", chStr q.2.2.1), ("name", chStr q.2.2.2)]
  | none => []

example : extract_info_from_uri "hive://proj__us.db1/t1" =
    [("entity", "hive"), ("cluster", "proj__us"), ("db", "db1"), ("name", "t1")] := by
  decide

example : extract_info_from_uri "no-scheme-here" = [] := by decide

example : extract_info_from_uri "://a.b/c" =
    [("entity", ""), ("cluster", "a"), ("db", "b"), ("name", "c")] := by decide

/-! ### Correctness lemmas for the URI matcher on separator-free segments -/

theorem chStr_data (s : String) : chStr s.data = s := rfl

theorem nameTail_of_not_mem (n : List Char) (h : '\n' ∉ n) : nameTail n = some n := by
  induction n with
  | nil => rfl
  | cons c rest ih =>
    rw [List.mem_cons, not_or] at h
    have hc : c ≠ '\n' := fun hcc => h.1 hcc.symm
    simp [nameTail, hc, ih h.2]

theorem dbSplit_append (d n : List Char) (hd : '/' ∉ d) (hdn : '\n' ∉ d)
    (hn : '\n' ∉ n) : dbSplit (d ++ '/' :: n) = some (d, n) := by
  induction d with
  | nil => simp [dbSplit, nameTail_of_not_mem n hn]
  | cons c rest ih =>
    rw [List.mem_cons, not_or] at hd hdn
    have hc1 : c ≠ '/' := fun hcc => hd.1 hcc.symm
    have hc2 : c ≠ '\n' := fun hcc => hdn.1 hcc.symm
    simp [dbSplit, hc1, hc2, ih hd.2 hdn.2]

theorem clusterSplit_none (r : List Char) (h : '.' ∉ r) : clusterSplit r = none := by
  induction r with
  | nil => rfl
  | cons c rest ih =>
    rw [List.mem_cons, not_or] at h
    have hc : c ≠ '.' := fun hcc => h.1 hcc.symm
    simp [clusterSplit, hc, ih h.2]

theorem clusterSplit_append (cl t d n : List Char) (hcl : '.' ∉ cl) (hcn : '\n' ∉ cl)
    (ht : '.' ∉ t) (hdb : dbSplit t = some (d, n)) :
    clusterSplit (cl ++ '.' :: t) = some (cl, d, n) := by
  induction cl with
  | nil => simp [clusterSplit, clusterSplit_none t ht, hdb]
  | cons c rest ih =>
    rw [List.mem_cons, not_or] at hcl hcn
    have hc2 : c ≠ '\n' := fun hcc => hcn.1 hcc.symm
    simp [clusterSplit, hc2, ih hcl.2 hcn.2]

theorem uriSplit_append (e r cl d n : List Char) (he : ':' ∉ e) (hen : '\n' ∉ e)
    (hr : clusterSplit r = some (cl, d, n)) :
    uriSplit (e ++ ':' :: '/' :: '/' :: r) = some (e, cl, d, n) := by
  induction e with
  | nil => simp [uriSplit, startSlashSlash, hr]
  | cons c rest ih =>
    rw [List.mem_cons, not_or] at he hen
    have hc1 : c ≠ ':' := fun hcc => he.1 hcc.symm
    have hc2 : c ≠ '\n' := fun hcc => hen.1 hcc.symm
    simp [uriSplit, hc1, hc2, ih he.2 hen.2]

theorem uriSplit_none_of_no_sep (s : List Char) (h : hasSchemeSep s = false) :
    uriSplit s = none := by
  induction s with
  | nil => rfl
  | cons c rest ih =>
    rw [hasSchemeSep, Bool.or_eq_false_iff] at h
    simp [uriSplit, h.1, ih h.2]

/-- ASCII letters and digits, the character set of the well-formed
segments in the testable property. -/
def isAlnumCh (c : Char) : Bool := c.isAlpha || c.isDigit

def isAlnumStr (s : String) : Bool := s.data.all isAlnumCh

theorem not_mem_of_alnum (ch : Char) (l : List Char) (hall : l.all isAlnumCh = true)
    (hch : isAlnumCh ch = false) : ch ∉ l := by
  intro hmem
  rw [List.all_eq_true] at hall
  have := hall ch hmem
  rw [hch] at this
  exact Bool.noConfusion this

theorem not_mem_append2 {ch : Char} {a b : List Char} (ha : ch ∉ a) (hb : ch ∉ b) :
    ch ∉ a ++ b := by
  intro hm
  rcases List.mem_append.1 hm with h | h
  · exact ha h
  · exact hb h

theorem not_mem_cons2 {ch c : Char} {l : List Char} (hc : ch ≠ c) (hl : ch ∉ l) :
    ch ∉ c :: l := by
  intro hm
  rcases List.mem_cons.1 hm with h | h
  · exact hc h
  · exact hl h

/-- C2: for every well-formed string of the form entity `://` c1 `__` c2
`.` db `/` name with non-empty alphanumeric segments, the URI parser
returns exactly the four-field mapping with those values, and every
string lacking the substring `://` is mapped to the empty dictionary
(with no exception possible, the parser being a total function). -/
theorem claim_C2_uri_grammar :
    (∀ e c1 c2 d n : String,
      e ≠ "" → isAlnumStr e = true → c1 ≠ "" → isAlnumStr c1 = true →
      c2 ≠ "" → isAlnumStr c2 = true → d ≠ "" → isAlnumStr d = true →
      n ≠ "" → isAlnumStr n = true →
      extract_info_from_uri (e ++ "://" ++ c1 ++ "__" ++ c2 ++ "." ++ d ++ "/" ++ n) =
        [("entity", e), ("cluster", c1 ++ "__" ++ c2), ("db", d), ("name", n)]) ∧
    (∀ s : String, hasSchemeSep s.data = false → extract_info_from_uri s = []) := by
  constructor
  · intro e c1 c2 d n _ hae _ ha1 _ ha2 _ had _ han
    have hsep : ("://" : String).data = [':', '/', '/'] := rfl
    have hund : ("__" : String).data = ['_', '_'] := rfl
    have hdot : ("." : String).data = ['.'] := rfl
    have hsl : ("/" : String).data = ['/'] := rfl
    have hdata : (e ++ "://" ++ c1 ++ "__" ++ c2 ++ "." ++ d ++ "/" ++ n).data
        = e.data ++ ':' :: '/' :: '/' ::
          ((c1.data ++ '_' :: '_' :: c2.data) ++ '.' :: (d.data ++ '/' :: n.data)) := by
      simp [String.data_append, hsep, hund, hdot, hsl]
    have hdb : dbSplit (d.data ++ '/' :: n.data) = some (d.data, n.data) :=
      dbSplit_append d.data n.data
        (not_mem_of_alnum _ _ had (by decide))
        (not_mem_of_alnum _ _ had (by decide))
        (not_mem_of_alnum _ _ han (by decide))
    have hclu : clusterSplit ((c1.data ++ '_' :: '_' :: c2.data) ++
        '.' :: (d.data ++ '/' :: n.data)) =
        some (c1.data ++ '_' :: '_' :: c2.data, d.data, n.data) :=
      clusterSplit_append _ _ _ _
        (not_mem_append2 (not_mem_of_alnum _ _ ha1 (by decide))
          (not_mem_cons2 (by decide) (not_mem_cons2 (by decide)
            (not_mem_of_alnum _ _ ha2 (by decide)))))
        (not_mem_append2 (not_mem_of_alnum _ _ ha1 (by decide))
          (not_mem_cons2 (by decide) (not_mem_cons2 (by decide)
            (not_mem_of_alnum _ _ ha2 (by decide)))))
        (not_mem_append2 (not_mem_of_alnum _ _ had (by decide))
          (not_mem_cons2 (by decide) (not_mem_of_alnum _ _ han (by decide))))
        hdb
    have huri := uriSplit_append e.data _ _ _ _
      (not_mem_of_alnum _ _ hae (by decide))
      (not_mem_of_alnum _ _ hae (by decide)) hclu
    have hcl2 : chStr (c1.data ++ '_' :: '_' :: c2.data) = c1 ++ "__" ++ c2 := by
      apply String.ext
      simp [chStr, String.data_append, hund]
    simp only [extract_info_from_uri, hdata, huri]
    simp [chStr_data, hcl2]
  · intro s h
    simp [extract_info_from_uri, uriSplit_none_of_no_sep s.data h]

/-- Witness for C2 at concrete inputs, discharging every hypothesis. -/
theorem claim_C2_witness :
    extract_info_from_uri "bq://p1__us.ds1/t1" =
      [("entity", "bq"), ("cluster", "p1__us"), ("db", "ds1"), ("name", "t1")] ∧
    extract_info_from_uri "no-sep" = [] := by
  constructor
  · have h := claim_C2_uri_grammar.1 "bq" "p1" "us" "ds1" "t1"
      (by decide) (by decide) (by decide) (by decide) (by decide)
      (by decide) (by decide) (by decide) (by decide) (by decide)
    simpa using h
  · exact claim_C2_uri_grammar.2 "no-sep" (by decide)

/-- C3 counterexample: the input `://a.b/c` is a successful parse whose
entity field is the empty string, so the claimed shape (all four fields
non-empty, or an empty mapping) is violated. -/
theorem claim_C3_counterexample :
    ¬ (extract_info_from_uri "://a.b/c" = [] ∨
       ∀ kv ∈ extract_info_from_uri "://a.b/c", kv.2 ≠ "") := by decide

/-- C3 amended: for every input string the parser result is one of two
shapes, a mapping carrying exactly the four keys entity, cluster, db,
name (whose values may be empty strings), or the empty mapping; being a
total function it never signals failure by an exception. -/
theorem claim_C3_amended : ∀ s : String,
    extract_info_from_uri s = [] ∨
      (extract_info_from_uri s).map Prod.fst = ["entity", "cluster", "db", "name"] := by
  intro s
  unfold extract_info_from_uri
  cases uriSplit s.data with
  | none => exact Or.inl rfl
  | some q => exact Or.inr rfl

/-! ### Python split and replace

Fuel-based structural recursions (the fuel is the input length, always
sufficient) so that every definition evaluates inside the kernel. -/

/-- When `p` is a leading segment of `l`, the remainder of `l`. -/
def dropPrefixCh : List Char → List Char → Option (List Char)
  | [], l => some l
  | _ :: _, [] => none
  | p :: ps, c :: cs => if c = p then dropPrefixCh ps cs else none

def pySplitFuel (sep : List Char) : Nat → List Char → List Char → List (List Char)
  | 0, _, cur => [cur.reverse]
  | fuel + 1, l, cur =>
    match l with
    | [] => [cur.reverse]
    | c :: rest =>
      match dropPrefixCh sep l with
      | some rem => cur.reverse :: pySplitFuel sep fuel rem []
      | none => pySplitFuel sep fuel rest (c :: cur)

/-- Python `s.split(sep)` for a non-empty separator: non-overlapping
scan from the left, empty segments kept. -/
def pySplit (s sep : String) : List String :=
  (pySplitFuel sep.data s.data.length s.data []).map chStr

example : pySplit "a__b" "__" = ["a", "b"] := by decide
example : pySplit "" "__" = [""] := by decide
example : pySplit "a____b__" "__" = ["a", "", "b", ""] := by decide
example : pySplit "owner_10" "_" = ["owner", "10"] := by decide

def pyReplaceFuel (pat rep : List Char) : Nat → List Char → List Char
  | _, [] => []
  | 0, l => l
  | fuel + 1, c :: rest =>
    match (if pat.isEmpty then none else dropPrefixCh pat (c :: rest)) with
    | some rem => rep ++ pyReplaceFuel pat rep fuel rem
    | none => c :: pyReplaceFuel pat rep fuel rest

/-- Python `s.replace(pat, rep)` for the uses in the source (an empty
pattern paired with an empty replacement leaves the string unchanged). -/
def pyReplace (s pat rep : String) : String :=
  chStr (pyReplaceFuel pat.data rep.data s.data.length s.data)

example : pyReplace "db1_t1" "t1" "" = "db1_" := by decide
example : pyReplace "a_b_c" "_" " " = "a b c" := by decide

/-- Python `s.strip(ch)` for a single strip character. -/
def pyStrip (ch : Char) (s : String) : String :=
  chStr (((s.data.dropWhile (fun c => c = ch)).reverse.dropWhile
    (fun c => c = ch)).reverse)

example : pyStrip '_' "_db1__" = "db1" := by decide

/-! ### Tags: owner extraction and metadata extraction -/

/-- A catalog tag as read by the proxy: the display name of its
template, and its field map as (key, string value) pairs in the
iteration order the client presents them. -/
structure TagModel where
  template_display_name : String
  fields : List (String × String)
deriving DecidableEq, Repr

/-- The slice of the User domain object populated by the proxy. -/
structure UserM where
  user_id : String
  email : String
deriving DecidableEq, Repr

/-- Translation of the tag-scanning body of `_get_resource_owners`:
collect `owner_<n>` fields of tags whose template display name is
exactly `Resource Owners`, keyed by the second split segment of the
field key (an IndexError when the key has no underscore), then emit the
values in the order of Python `sorted` over the dictionary items. -/
def resourceOwnersFrom (tags : List TagModel) : Except PyErr (List UserM) := do
  let emails ← tags.foldlM (fun acc tag =>
    if tag.template_display_name = "Resource Owners" then
      tag.fields.foldlM (fun a kv => do
        let suffix ← pyIdx (pySplit kv.1 "_") 1
        Except.ok (dictInsert a suffix kv.2)) acc
    else Except.ok acc) ([] : List (String × String))
  Except.ok ((pySortPairs emails).map (fun kv => UserM.mk kv.2 kv.2))

/-- Translation of the tag-scanning body of `_get_resource_metadata`:
flatten the fields of every tag whose template display name satisfies
the supplied display-name test into one dictionary, later writes
overwriting earlier ones. -/
def resourceMetadataFrom (pred : String → Bool) (tags : List TagModel) :
    List (String × String) :=
  tags.foldl (fun acc tag =>
    if pred tag.template_display_name then
      tag.fields.foldl (fun a kv => dictInsert a kv.1 kv.2) acc
    else acc) []

/-- Match semantics of an anchored pattern `.*LIT$`: the input ends
with LIT (or with LIT followed by one final newline) and the part
before LIT contains no newline. -/
def matchesSuffixDollar (lit : List Char) (s : String) : Bool :=
  let d := s.data
  let d2 := match d.getLast? with
    | some c => if c = '\n' then d.dropLast else d
    | none => d
  if d2.length < lit.length then false
  else (d2.drop (d2.length - lit.length) == lit) &&
    noNL (d2.take (d2.length - lit.length))

/-- The default display-name pattern of `_get_resource_metadata`,
`.*\- Metadata$`. -/
def metadataDisplayNameMatch (s : String) : Bool :=
  matchesSuffixDollar ("- Metadata").data s

example : metadataDisplayNameMatch "Mysql - Metadata" = true := by decide
example : metadataDisplayNameMatch "Mysql - Metadata x" = false := by decide

/-- The field permutations of the C1 scenario: the three owner fields
in every enumeration order the catalog could present. -/
def ownerFieldPerms : List (List (String × String)) :=
  [[("owner_1", "a@x.com"), ("owner_2", "b@x.com"), ("owner_10", "c@x.com")],
   [("owner_1", "a@x.com"), ("owner_10", "c@x.com"), ("owner_2", "b@x.com")],
   [("owner_2", "b@x.com"), ("owner_1", "a@x.com"), ("owner_10", "c@x.com")],
   [("owner_2", "b@x.com"), ("owner_10", "c@x.com"), ("owner_1", "a@x.com")],
   [("owner_10", "c@x.com"), ("owner_1", "a@x.com"), ("owner_2", "b@x.com")],
   [("owner_10", "c@x.com"), ("owner_2", "b@x.com"), ("owner_1", "a@x.com")]]

/-- C1 counterexample: with fields owner_2, owner_1, owner_10 holding
b@x.com, a@x.com, c@x.com, the extractor does not return the claimed
numeric order a, b, c; the dictionary keys are the suffix strings and
Python sorted compares them lexicographically, giving a, c, b (the
string 10 sorts before the string 2). -/
theorem claim_C1_counterexample :
    resourceOwnersFrom [TagModel.mk "Resource Owners"
        [("owner_2", "b@x.com"), ("owner_1", "a@x.com"), ("owner_10", "c@x.com")]] ≠
      Except.ok [UserM.mk "a@x.com" "a@x.com", UserM.mk "b@x.com" "b@x.com",
        UserM.mk "c@x.com" "c@x.com"] ∧
    resourceOwnersFrom [TagModel.mk "Resource Owners"
        [("owner_2", "b@x.com"), ("owner_1", "a@x.com"), ("owner_10", "c@x.com")]] =
      Except.ok [UserM.mk "a@x.com" "a@x.com", UserM.mk "c@x.com" "c@x.com",
        UserM.mk "b@x.com" "b@x.com"] := by
  constructor
  · decide
  · decide

/-- C1 amended: for any enumeration order of the three owner fields the
extractor returns the emails ordered by ascending lexicographic string
order of the numeric suffix — a@x.com, c@x.com, b@x.com, with owner_10
before owner_2 — and for two owner fields with the same suffix across
tags the later one overwrites the earlier one. -/
theorem claim_C1_amended :
    (∀ fields, fields ∈ ownerFieldPerms →
      resourceOwnersFrom [TagModel.mk "Resource Owners" fields] =
        Except.ok [UserM.mk "a@x.com" "a@x.com", UserM.mk "c@x.com" "c@x.com",
          UserM.mk "b@x.com" "b@x.com"]) ∧
    resourceOwnersFrom
        [TagModel.mk "Resource Owners" [("owner_1", "x@x.com")],
         TagModel.mk "Resource Owners" [("owner_1", "y@x.com")]] =
      Except.ok [UserM.mk "y@x.com" "y@x.com"] := by
  constructor
  · decide
  · decide

/-- Witness for C1 amended at one concrete enumeration order. -/
theorem claim_C1_amended_witness :
    resourceOwnersFrom [TagModel.mk "Resource Owners"
        [("owner_2", "b@x.com"), ("owner_1", "a@x.com"), ("owner_10", "c@x.com")]] =
      Except.ok [UserM.mk "a@x.com" "a@x.com", UserM.mk "c@x.com" "c@x.com",
        UserM.mk "b@x.com" "b@x.com"] :=
  claim_C1_amended.1 _ (by decide)

/-! ### The catalog client, entries, and the entry resolver -/

/-- A column of an entry schema, as read by `get_table`. -/
structure ColumnSchema where
  column : String
  description : String
  type : String
deriving DecidableEq, Repr

/-- The slice of a raw catalog entry read by the proxy: identity,
description, the bigquery table-source-type discriminator and view
query, the column schema, the create and update timestamps in whole
seconds, and the system discriminator pair read by the dashboard
canonicalizer (the free-text system name, empty when unset, and the
integer system code). -/
structure Entry where
  name : String
  description : String
  table_source_type : Nat
  view_query : String
  columns : List ColumnSchema
  update_seconds : Nat
  create_seconds : Nat
  user_specified_system : String
  integrated_system : Nat
deriving DecidableEq, Repr

/-- A raw search hit as consumed by `_process_table_entry` and
`get_latest_updated_ts`. The system discriminator is either the
free-text connector name (non-empty `user_specified_system`) or, when
that is empty, the integer code `integrated_system`. -/
structure SearchResult where
  linked_resource : String
  relative_resource_name : String
  user_specified_system : String
  integrated_system : Nat
deriving DecidableEq, Repr

/-- The external catalog client: a record of abstract operations, each
either returning a value or failing with an exception. The search
capability is the lazy hit stream as a list. -/
structure Client where
  search_catalog : String → Option String → List SearchResult
  lookup_entry : String → Except PyErr Entry
  get_entry : String → Except PyErr Entry
  entry_path : String → String → String → String → String
  list_tags : String → Except PyErr (List TagModel)
  update_entry : Entry → Except PyErr Unit

/-- Instrumentation of which client resolution call `_get_table_entry`
performed, and with which identifier. -/
inductive LookupAction : Type where
  | linked (url : String)
  | entryPath (project location group entryId url : String)
deriving DecidableEq, Repr

/-- The linked-resource locator built in the bigquery branch of
`_get_table_entry`. -/
def bigqueryLinkedResource (entity project_id db_name table_name : String) : String :=
  "//" ++ entity ++ ".googleapis.com/projects/" ++ project_id ++
    "/datasets/" ++ db_name ++ "/tables/" ++ table_name

theorem except_bind_ok {α β : Type} (a : α) (f : α → Except PyErr β) :
    (Except.ok a >>= f) = f a := rfl

theorem except_bind_error {α β : Type} (e : PyErr) (f : α → Except PyErr β) :
    ((Except.error e : Except PyErr α) >>= f) = Except.error e := rfl

/-- Translation of `_get_table_entry`: parse the URI, read the entity
and cluster fields of the (possibly empty) result dictionary, split the
cluster on the double underscore into project id and location, then
resolve by linked-resource lookup for bigquery and by a constructed
entry path otherwise, attaching the identifier used under the key url.
The third component records which client call was performed. -/
def get_table_entry (c : Client) (table_uri : String) :
    Except PyErr (Entry × List (String × String) × LookupAction) := do
  let entity_parameters := extract_info_from_uri table_uri
  let entity ← dictGet entity_parameters "entity"
  let cluster ← dictGet entity_parameters "cluster"
  let (project_id, project_location) ←
    (match pySplit cluster "__" with
     | [p, l] => Except.ok (p, l)
     | _ => Except.error PyErr.valueError)
  let db_name ← dictGet entity_parameters "db"
  let table_name ← dictGet entity_parameters "name"
  if entity = "bigquery" then do
    let url := bigqueryLinkedResource entity project_id db_name table_name
    let entry ← c.lookup_entry url
    Except.ok (entry, dictInsert entity_parameters "url" url, LookupAction.linked url)
  else do
    let separator := if entity = "hive" then "__" else "_"
    let entryId := db_name ++ separator ++ table_name
    let url := c.entry_path project_id project_location entity entryId
    let entry ← c.get_entry url
    Except.ok (entry, dictInsert entity_parameters "url" url,
      LookupAction.entryPath project_id project_location entity entryId url)

/-- Translation of `_get_resource_owners`: list the tags of the
resource link, then extract and order the owners. -/
def get_resource_owners (c : Client) (resource_link : String) :
    Except PyErr (List UserM) := do
  let tags ← c.list_tags resource_link
  resourceOwnersFrom tags

/-- Translation of `_get_resource_metadata`: list the tags of the
resource link, then flatten the fields of the matching templates. -/
def get_resource_metadata (c : Client) (resource_link : String)
    (pred : String → Bool) : Except PyErr (List (String × String)) := do
  let tags ← c.list_tags resource_link
  Except.ok (resourceMetadataFrom pred tags)

/-! ### View detection and the table canonicalizer -/

/-- Python whitespace class for ASCII input. -/
def isPySpace (c : Char) : Bool :=
  c = ' ' || c = '\t' || c = '\n' || c = '\r' || c = '\x0b' || c = '\x0c'

def backtickChar : Char := Char.ofNat 96

/-- The character class of the view-source pattern group,
letters, digits, hyphen, underscore, dot. -/
def viewChar (c : Char) : Bool :=
  c.isAlpha || c.isDigit || c = '-' || c = '_' || c = '.'

/-- Match of the view-source pattern at the head of the list: the
literal FROM, one whitespace, a backtick, a non-empty greedy run of the
group class, a closing backtick; the run is returned. -/
def matchFromAt (l : List Char) : Option (List Char) :=
  match l with
  | 'F' :: 'R' :: 'O' :: 'M' :: w :: b :: rest =>
    if isPySpace w && b = backtickChar then
      let run := rest.takeWhile viewChar
      if run.isEmpty then none
      else
        match rest.dropWhile viewChar with
        | b2 :: _ => if b2 = backtickChar then some run else none
        | [] => none
    else none
  | _ => none

/-- Leftmost match of the view-source pattern: the first successful
position scanning from the left, as the first element of `findall`. -/
def findViewSourceAux : List Char → Option (List Char)
  | [] => none
  | c :: rest =>
    match matchFromAt (c :: rest) with
    | some run => some run
    | none => findViewSourceAux rest

def findViewSource (s : String) : Option String :=
  (findViewSourceAux s.data).map chStr

example : findViewSource "SELECT * FROM `proj.ds.base_tbl` WHERE x" =
    some "proj.ds.base_tbl" := by decide
example : findViewSource "SELECT 1" = none := by decide

/-- Python `str.title` for ASCII input: a letter is uppercased when the
previous character is not a letter, lowercased otherwise. -/
def titleAux : Bool → List Char → List Char
  | _, [] => []
  | prevAlpha, c :: rest =>
    (if c.isAlpha then (if prevAlpha then c.toLower else c.toUpper) else c) ::
      titleAux c.isAlpha rest

def pyTitle (s : String) : String := chStr (titleAux false s.data)

example : pyTitle "bigquery" = "Bigquery" := by decide

/-- Last dot-separated segment, Python `g.split(".")[-1]` (a split
result is never empty, so the default is unreachable). -/
def lastDotSegment (s : String) : String := (pySplit s ".").getLastD ""

/-- The view source record built by `get_table`. -/
structure Source where
  source_type : String
  source : String
deriving DecidableEq, Repr

/-- Translation of the inner `is_view` closure of `get_table`: a
bigquery entry is a view exactly when its table-source-type code is 2;
the source is the last dot segment of the first view-source match of
the view query, or nothing when the query has no match (the IndexError
is swallowed); every other entity yields false and no source. -/
def is_view_check (entity : String) (entry : Entry) : Bool × Option Source :=
  if entity = "bigquery" then
    if entry.table_source_type = 2 then
      match findViewSource entry.view_query with
      | some g => (true, some (Source.mk (pyTitle entity) (lastDotSegment g)))
      | none => (true, none)
    else (false, none)
  else (false, none)

/-- A column of the canonical table record. -/
structure Column where
  name : String
  description : String
  col_type : String
  sort_order : Nat
deriving DecidableEq, Repr

structure ProgrammaticDescription where
  source : String
  text : String
deriving DecidableEq, Repr

/-- The canonical table record populated by `get_table`. -/
structure Table where
  name : String
  cluster : String
  database : String
  schema : String
  description : String
  last_updated_timestamp : Nat
  tags : List String
  badges : List String
  columns : List Column
  is_view : Bool
  source : Option Source
  owners : List UserM
  programmatic_descriptions : List ProgrammaticDescription
deriving DecidableEq, Repr

/-- Translation of `get_table`: resolve the entry, map the columns with
sort order zero, run view detection, pick the resource link (the entry
identity for bigquery, the constructed path otherwise), then attach the
sorted programmatic descriptions with underscores turned into spaces,
and the owners. -/
def get_table (c : Client) (table_uri : String) : Except PyErr Table := do
  let res ← get_table_entry c table_uri
  let entry := res.1
  let entity_parameters := res.2.1
  let entity ← dictGet entity_parameters "entity"
  let table_name ← dictGet entity_parameters "name"
  let project_id ← dictGet entity_parameters "cluster"
  let db_name ← dictGet entity_parameters "db"
  let url ← dictGet entity_parameters "url"
  let columns := entry.columns.map (fun col =>
    Column.mk col.column col.description col.type 0)
  let vw := is_view_check entity entry
  let resource_link := if entity = "bigquery" then entry.name else url
  let md ← get_resource_metadata c resource_link metadataDisplayNameMatch
  let programmatic_descriptions := (pySortPairs md).map (fun kv =>
    ProgrammaticDescription.mk (pyReplace kv.1 "_" " ") (pyReplace kv.2 "_" " "))
  let owners ← get_resource_owners c resource_link
  Except.ok (Table.mk table_name project_id entity db_name entry.description
    entry.update_seconds [] [] columns vw.1 vw.2 owners programmatic_descriptions)

/-- Translation of `get_table_description`. -/
def get_table_description (c : Client) (table_uri : String) : Except PyErr String := do
  let res ← get_table_entry c table_uri
  Except.ok res.1.description

/-- Translation of `put_table_description`: re-resolve the entry, set
its description, forward the updated entry to the catalog. -/
def put_table_description (c : Client) (table_uri description : String) :
    Except PyErr Unit := do
  let res ← get_table_entry c table_uri
  c.update_entry { res.1 with description := description }

/-- C4: for every successfully parsed URI whose cluster splits on the
double underscore into project id and location, the resolver performs a
linked-resource lookup with the exact bigquery locator string when the
entity is bigquery, and otherwise a direct path lookup on the entry
path built from project id, location, entity, and db-sep-name with sep
a double underscore exactly for hive and a single underscore otherwise;
in both branches the identifier used is attached under the key url. -/
theorem claim_C4_entry_resolver :
    ∀ (c : Client) (uri e0 cl d n p l : String),
      extract_info_from_uri uri = [("entity", e0), ("cluster", cl), ("db", d), ("name", n)] →
      pySplit cl "__" = [p, l] →
      ((e0 = "bigquery" →
        ∀ entry : Entry,
          c.lookup_entry (bigqueryLinkedResource "bigquery" p d n) = Except.ok entry →
          get_table_entry c uri = Except.ok (entry,
            [("entity", e0), ("cluster", cl), ("db", d), ("name", n),
             ("url", bigqueryLinkedResource "bigquery" p d n)],
            LookupAction.linked (bigqueryLinkedResource "bigquery" p d n))) ∧
       (e0 ≠ "bigquery" →
        ∀ entry : Entry,
          c.get_entry (c.entry_path p l e0
              (d ++ (if e0 = "hive" then "__" else "_") ++ n)) = Except.ok entry →
          get_table_entry c uri = Except.ok (entry,
            [("entity", e0), ("cluster", cl), ("db", d), ("name", n),
             ("url", c.entry_path p l e0
               (d ++ (if e0 = "hive" then "__" else "_") ++ n))],
            LookupAction.entryPath p l e0
              (d ++ (if e0 = "hive" then "__" else "_") ++ n)
              (c.entry_path p l e0
                (d ++ (if e0 = "hive" then "__" else "_") ++ n)))) ∧
       bigqueryLinkedResource "bigquery" p d n =
         "//bigquery.googleapis.com/projects/" ++ p ++ "/datasets/" ++ d ++
           "/tables/" ++ n) := by
  intro c uri e0 cl d n p l hx hsplit
  refine ⟨?_, ?_, ?_⟩
  · intro hbq entry hlu
    subst hbq
    simp [get_table_entry, hx, dictGet, hsplit, hlu, dictInsert, except_bind_ok]
  · intro hne entry hge
    simp [get_table_entry, hx, dictGet, hsplit, hne, hge, dictInsert, except_bind_ok]
  · simp [bigqueryLinkedResource, String.append_assoc]

/-- A concrete entry, client and tag set for witnesses. -/
def dummyEntry : Entry := Entry.mk "entryName1" "a table" 0 "" [] 7 5 "tableau" 0

def dummyClient : Client :=
  Client.mk (fun _ _ => []) (fun _ => Except.ok dummyEntry)
    (fun _ => Except.ok dummyEntry)
    (fun p l g e => p ++ "/" ++ l ++ "/" ++ g ++ "/" ++ e)
    (fun _ => Except.ok []) (fun _ => Except.ok ())

/-- Witness for C4 at a concrete bigquery URI and client. -/
theorem claim_C4_witness :
    get_table_entry dummyClient "bigquery://p1__us.ds1/t1" = Except.ok (dummyEntry,
      [("entity", "bigquery"), ("cluster", "p1__us"), ("db", "ds1"), ("name", "t1"),
       ("url", bigqueryLinkedResource "bigquery" "p1" "ds1" "t1")],
      LookupAction.linked (bigqueryLinkedResource "bigquery" "p1" "ds1" "t1")) :=
  (claim_C4_entry_resolver dummyClient "bigquery://p1__us.ds1/t1" "bigquery"
    "p1__us" "ds1" "t1" "p1" "us" (by decide) (by decide)).1 rfl dummyEntry rfl

theorem is_view_check_of_not_bigquery (entity : String) (entry : Entry)
    (h : entity ≠ "bigquery") : is_view_check entity entry = (false, none) := by
  simp [is_view_check, h]

theorem is_view_check_view (entity : String) (entry : Entry)
    (h1 : entity = "bigquery") (h2 : entry.table_source_type = 2) :
    is_view_check entity entry =
      (true, (findViewSource entry.view_query).map (fun g =>
        Source.mk (pyTitle entity) (lastDotSegment g))) := by
  cases hf : findViewSource entry.view_query <;> simp [is_view_check, h1, h2, hf]

/-- C5: an entry is classified as a view exactly when the entity is
bigquery and the table-source-type code is 2; when it is a view the
source is the last dot segment of the first backtick match of the view
query, or nothing when the query has no match while the view flag stays
true; and any table produced by get_table for a non-bigquery entity has
the view flag false. -/
theorem claim_C5_view_detection :
    (∀ (entity : String) (entry : Entry),
      ((is_view_check entity entry).1 = true ↔
        (entity = "bigquery" ∧ entry.table_source_type = 2))) ∧
    (∀ (entity : String) (entry : Entry),
      entity = "bigquery" → entry.table_source_type = 2 →
      is_view_check entity entry =
        (true, (findViewSource entry.view_query).map (fun g =>
          Source.mk (pyTitle entity) (lastDotSegment g)))) ∧
    (∀ (entity : String) (entry : Entry),
      entity = "bigquery" → entry.table_source_type = 2 →
      findViewSource entry.view_query = none →
      is_view_check entity entry = (true, none)) ∧
    (∀ (c : Client) (uri : String) (t : Table),
      get_table c uri = Except.ok t → t.database ≠ "bigquery" → t.is_view = false) := by
  refine ⟨?_, ?_, ?_, ?_⟩
  · intro entity entry
    by_cases h1 : entity = "bigquery"
    · by_cases h2 : entry.table_source_type = 2
      · cases hf : findViewSource entry.view_query <;> simp [is_view_check, h1, h2, hf]
      · simp [is_view_check, h1, h2]
    · simp [is_view_check, h1]
  · exact is_view_check_view
  · intro entity entry h1 h2 hf
    rw [is_view_check_view entity entry h1 h2, hf]
    rfl
  · intro c uri t hok hne
    simp only [get_table] at hok
    cases hge : get_table_entry c uri with
    | error e => rw [hge, except_bind_error] at hok; exact Except.noConfusion hok
    | ok res =>
      obtain ⟨entry, params, act⟩ := res
      rw [hge] at hok
      simp only [except_bind_ok] at hok
      cases hent : dictGet params "entity" with
      | error e => rw [hent, except_bind_error] at hok; exact Except.noConfusion hok
      | ok entity =>
        rw [hent] at hok
        simp only [except_bind_ok] at hok
        cases hnm : dictGet params "name" with
        | error e => rw [hnm, except_bind_error] at hok; exact Except.noConfusion hok
        | ok table_name =>
          rw [hnm] at hok
          simp only [except_bind_ok] at hok
          cases hcl : dictGet params "cluster" with
          | error e => rw [hcl, except_bind_error] at hok; exact Except.noConfusion hok
          | ok project_id =>
            rw [hcl] at hok
            simp only [except_bind_ok] at hok
            cases hdb : dictGet params "db" with
            | error e => rw [hdb, except_bind_error] at hok; exact Except.noConfusion hok
            | ok db_name =>
              rw [hdb] at hok
              simp only [except_bind_ok] at hok
              cases hurl : dictGet params "url" with
              | error e => rw [hurl, except_bind_error] at hok; exact Except.noConfusion hok
              | ok url =>
                rw [hurl] at hok
                simp only [except_bind_ok] at hok
                cases hmd : get_resource_metadata c
                    (if entity = "bigquery" then entry.name else url)
                    metadataDisplayNameMatch with
                | error e => rw [hmd, except_bind_error] at hok; exact Except.noConfusion hok
                | ok md =>
                  rw [hmd] at hok
                  simp only [except_bind_ok] at hok
                  cases how : get_resource_owners c
                      (if entity = "bigquery" then entry.name else url) with
                  | error e => rw [how, except_bind_error] at hok; exact Except.noConfusion hok
                  | ok owners =>
                    rw [how] at hok
                    simp only [except_bind_ok] at hok
                    have ht := Except.ok.inj hok
                    rw [← ht] at hne ⊢
                    simp only [] at hne ⊢
                    exact congrArg Prod.fst (is_view_check_of_not_bigquery entity entry hne)

def viewEntry : Entry :=
  Entry.mk "e1" "" 2 "SELECT * FROM `proj.ds.base_tbl`" [] 0 0 "" 1

/-- Witness for C5 at a concrete bigquery view entry. -/
theorem claim_C5_witness :
    is_view_check "bigquery" viewEntry =
      (true, some (Source.mk "Bigquery" "base_tbl")) := by
  have h := claim_C5_view_detection.2.1 "bigquery" viewEntry rfl rfl
  rw [h]
  decide

/-- C8 counterexample: on a malformed URI, get_table fails with the
missing-key condition for the key entity, raised when the resolver
indexes the empty parse result for its first field; it is not the
missing-key condition for the cluster key, and no cluster string is
ever read or split, contrary to the claimed failure point. -/
theorem claim_C8_counterexample :
    get_table dummyClient "malformed-uri" = Except.error (PyErr.keyError "entity") ∧
    PyErr.keyError "entity" ≠ PyErr.keyError "cluster" := by
  constructor
  · rfl
  · decide

/-- C8 amended: for every client and every table_uri the URI grammar
does not match — that is, every input on which the parser yields the
empty mapping — get_table neither returns normally nor raises during
parsing itself; the empty parse mapping propagates into the resolver,
which fails with the missing-key condition for the key entity, the
first field it indexes, before the cluster is read or split. -/
theorem claim_C8_amended :
    ∀ (c : Client) (s : String), extract_info_from_uri s = [] →
      get_table c s = Except.error (PyErr.keyError "entity") := by
  intro c s hx
  simp [get_table, get_table_entry, hx, dictGet, except_bind_error]

/-- Witness for C8 amended at a concrete malformed URI that does
contain the scheme separator yet fails the grammar. -/
theorem claim_C8_amended_witness :
    get_table dummyClient "x://y" = Except.error (PyErr.keyError "entity") :=
  claim_C8_amended dummyClient "x://y" (by decide)

/-! ### Search projection, popular tables, latest update timestamp -/

/-- The partial table record projected from one search hit. -/
structure TableDict where
  database : String
  cluster : String
  schema : String
  name : String
deriving DecidableEq, Repr

/-- Translation of `_process_table_entry`: split the linked resource
and the relative resource name on slashes; the name is the last linked
segment; a non-empty free-text system name selects the connector
branch (schema from the last resource-name segment with the table name
removed and underscores stripped), an empty one selects the integer
code branch (code 1 is bigquery with schema the third-from-last linked
segment, any other code is an unsupported-system failure); the cluster
splices resource-name segments one and three. -/
def process_table_entry (entry : SearchResult) : Except PyErr TableDict := do
  let linked_resource_parts := pySplit entry.linked_resource "/"
  let relative_resource_name_parts := pySplit entry.relative_resource_name "/"
  let name ← pyIdx linked_resource_parts (-1)
  let dbSchema ←
    (if entry.user_specified_system = "" then
      if entry.integrated_system = 1 then do
        let schema ← pyIdx linked_resource_parts (-3)
        Except.ok ("bigquery", schema)
      else Except.error PyErr.notImplementedError
    else do
      let lastPart ← pyIdx relative_resource_name_parts (-1)
      Except.ok (entry.user_specified_system, pyStrip '_' (pyReplace lastPart name "")))
  let c1 ← pyIdx relative_resource_name_parts 1
  let c3 ← pyIdx relative_resource_name_parts 3
  Except.ok (TableDict.mk dbSchema.1 (c1 ++ "__" ++ c3) dbSchema.2 name)

/-- An element of the accumulated search result list: a projected
record in table mode, the raw hit otherwise. -/
inductive SearchItem : Type where
  | table (d : TableDict)
  | raw (r : SearchResult)
deriving DecidableEq, Repr

theorem except_pure_eq {α : Type} (a : α) : (pure a : Except PyErr α) = Except.ok a := rfl

theorem except_map_ok {α β : Type} (f : α → β) (a : α) :
    (f <$> (Except.ok a : Except PyErr α)) = Except.ok (f a) := rfl

/-- Translation of the loop of `_basic_search`: the counter starts at
one and is compared against the limit after each element is drawn from
the stream, so the element that triggers the break has already been
drawn; the third component counts the elements drawn. -/
def basic_search_loop (entry_type : Option String) (num_entries : Nat) :
    Nat → List SearchResult → Except PyErr (Nat × List SearchItem × Nat)
  | i, [] => Except.ok (i, [], 0)
  | i, element :: rest =>
    if i ≤ num_entries then do
      let item ← (if entry_type = some "table" then
          SearchItem.table <$> process_table_entry element
        else Except.ok (SearchItem.raw element))
      let res ← basic_search_loop entry_type num_entries (i + 1) rest
      Except.ok (res.1, item :: res.2.1, res.2.2 + 1)
    else Except.ok (i, [], 1)

/-- Translation of `_basic_search`: build the query (a type filter for
a non-empty entry type, the wildcard otherwise), run the catalog search
and collect up to the limit. -/
def basic_search (c : Client) (entry_type : Option String) (num_entries : Nat)
    (order_by : Option String) : Except PyErr (Nat × List SearchItem × Nat) :=
  let query := match entry_type with
    | some t => if t = "" then "*" else "type=" ++ t
    | none => "*"
  basic_search_loop entry_type num_entries 1 (c.search_catalog query order_by)

/-- The PopularTable construction applied to each collected result; a
raw hit in place of a projected record would be a type failure. -/
def popularOf : SearchItem → Except PyErr TableDict
  | SearchItem.table d => Except.ok d
  | SearchItem.raw _ => Except.error PyErr.typeError

/-- Translation of `get_popular_tables`; the second component exposes
how many elements of the search stream were drawn. -/
def get_popular_tables (c : Client) (num_entries : Nat) :
    Except PyErr (List TableDict × Nat) := do
  let res ← basic_search c (some "table") num_entries none
  let popular_tables ← res.2.1.mapM popularOf
  Except.ok (popular_tables, res.2.2)

/-- Translation of `get_latest_updated_ts`: a bounded search for the
single most recently modified hit; with no hit the function falls off
the end and returns the Python None, modelled as Option.none; with a
hit, any failure of the re-resolution is swallowed by the bare except
and zero is returned, and a success returns the update seconds. -/
def get_latest_updated_ts (c : Client) : Except PyErr (Option Nat) := do
  let res ← basic_search c none 1 (some "last_modified_timestamp desc")
  match res.2.1 with
  | [] => Except.ok none
  | item :: _ =>
    match item with
    | SearchItem.raw entry =>
      (match c.get_entry entry.relative_resource_name with
       | Except.ok e => Except.ok (some e.update_seconds)
       | Except.error _ => Except.ok (some 0))
    | SearchItem.table _ => Except.ok (some 0)

theorem basic_search_loop_table_spec :
    ∀ (stream : List SearchResult) (num i : Nat) (ds : List TableDict),
      i ≤ num + 1 → num + 1 - i < stream.length →
      (stream.take (num + 1 - i)).mapM process_table_entry = Except.ok ds →
      basic_search_loop (some "table") num i stream =
        Except.ok (num + 1, ds.map SearchItem.table, (num + 1 - i) + 1) := by
  intro stream
  induction stream with
  | nil =>
    intro num i ds _ hlen _
    simp at hlen
  | cons el rest ih =>
    intro num i ds hle hlen hmap
    by_cases hc : i ≤ num
    · have hk : num + 1 - i = (num - i) + 1 := by omega
      rw [hk, List.take_succ_cons, List.mapM_cons] at hmap
      cases hpe : process_table_entry el with
      | error e =>
        rw [hpe, except_bind_error] at hmap
        exact Except.noConfusion hmap
      | ok d =>
        rw [hpe] at hmap
        simp only [except_bind_ok] at hmap
        cases hrest : (rest.take (num - i)).mapM process_table_entry with
        | error e =>
          rw [hrest, except_bind_error] at hmap
          exact Except.noConfusion hmap
        | ok ds2 =>
          rw [hrest] at hmap
          simp only [except_bind_ok, except_pure_eq] at hmap
          have hds := Except.ok.inj hmap
          subst hds
          have hlen2 : num + 1 - (i + 1) < rest.length := by
            simp only [List.length_cons] at hlen
            omega
          have hmap2 : (rest.take (num + 1 - (i + 1))).mapM process_table_entry =
              Except.ok ds2 := by
            have : num + 1 - (i + 1) = num - i := by omega
            rw [this]
            exact hrest
          have hrec := ih num (i + 1) ds2 (by omega) hlen2 hmap2
          simp only [basic_search_loop, hc, if_true, hpe, hrec, except_bind_ok]
          have harith : num + 1 - (i + 1) + 1 + 1 = num + 1 - i + 1 := by omega
          rw [harith]
          simp only [except_map_ok, except_bind_ok, List.map_cons]
    · have hi : i = num + 1 := by omega
      subst hi
      have h0 : num + 1 - (num + 1) = 0 := by omega
      rw [h0] at hmap ⊢
      simp only [List.take_zero, List.mapM_nil, except_pure_eq] at hmap
      have hds := Except.ok.inj hmap
      subst hds
      simp [basic_search_loop]

theorem mapM_popularOf_map_table :
    ∀ ds : List TableDict, (ds.map SearchItem.table).mapM popularOf = Except.ok ds := by
  intro ds
  induction ds with
  | nil => rfl
  | cons d rest ih =>
    rw [List.map_cons, List.mapM_cons, ih]
    rfl

/-- C6 amended: against a search stream with more table hits than the
requested limit, get_popular_tables returns exactly the first N
projected records in stream order, but draws N+1 elements from the
stream — one beyond those returned, because the loop counter is only
checked after the next element has been pulled. -/
theorem claim_C6_amended :
    ∀ (c : Client) (N : Nat) (ds : List TableDict),
      N < (c.search_catalog "type=table" none).length →
      ((c.search_catalog "type=table" none).take N).mapM process_table_entry =
        Except.ok ds →
      get_popular_tables c N = Except.ok (ds, N + 1) := by
  intro c N ds hlen hmap
  have hq : (if ("table" : String) = "" then "*" else "type=" ++ "table") =
      "type=table" := rfl
  have hone : N + 1 - 1 = N := by omega
  have hloop := basic_search_loop_table_spec (c.search_catalog "type=table" none)
    N 1 ds (by omega) (by rw [hone]; exact hlen) (by rw [hone]; exact hmap)
  rw [hone] at hloop
  simp only [get_popular_tables, basic_search, hq]
  rw [hloop]
  simp only [except_bind_ok, mapM_popularOf_map_table, except_pure_eq]

def mkSearchHit (k : String) : SearchResult :=
  SearchResult.mk ("x/db1/" ++ k)
    ("projects/p1/locations/us/entryGroups/mysql/entries/db1_" ++ k) "mysql" 0

/-- A client whose search stream holds ten table hits. -/
def tenHitClient : Client :=
  Client.mk
    (fun _ _ => [mkSearchHit "t0", mkSearchHit "t1", mkSearchHit "t2",
      mkSearchHit "t3", mkSearchHit "t4", mkSearchHit "t5", mkSearchHit "t6",
      mkSearchHit "t7", mkSearchHit "t8", mkSearchHit "t9"])
    (fun _ => Except.ok dummyEntry) (fun _ => Except.ok dummyEntry)
    (fun p l g e => p ++ "/" ++ l ++ "/" ++ g ++ "/" ++ e)
    (fun _ => Except.ok []) (fun _ => Except.ok ())

/-- C6 counterexample: with num_entries three against a stream of ten
table hits, exactly three projected records come back in stream order,
but four elements of the stream have been drawn, so the stream is
advanced beyond the three returned hits, against the claim. -/
theorem claim_C6_counterexample :
    get_popular_tables tenHitClient 3 =
      Except.ok ([TableDict.mk "mysql" "p1__us" "db1" "t0",
        TableDict.mk "mysql" "p1__us" "db1" "t1",
        TableDict.mk "mysql" "p1__us" "db1" "t2"], 4) ∧ (4 : Nat) ≠ 3 := by
  constructor
  · rfl
  · decide

/-- Witness for C6 amended with limit two against the ten-hit client. -/
theorem claim_C6_amended_witness :
    get_popular_tables tenHitClient 2 =
      Except.ok ([TableDict.mk "mysql" "p1__us" "db1" "t0",
        TableDict.mk "mysql" "p1__us" "db1" "t1"], 3) :=
  claim_C6_amended tenHitClient 2
    [TableDict.mk "mysql" "p1__us" "db1" "t0",
     TableDict.mk "mysql" "p1__us" "db1" "t1"] (by decide) (by decide)

/-- C10: when the bounded search of get_latest_updated_ts yields zero
hits, the loop body never runs and the operation returns the Python
None — no value at all, which is neither the integer zero nor an
error, despite the declared integer return type. -/
theorem claim_C10_empty_search :
    ∀ c : Client, c.search_catalog "*" (some "last_modified_timestamp desc") = [] →
      get_latest_updated_ts c = Except.ok none := by
  intro c h
  simp only [get_latest_updated_ts, basic_search, h, basic_search_loop, except_bind_ok]

/-- Witness for C10 on a client with an empty search stream. -/
theorem claim_C10_witness : get_latest_updated_ts dummyClient = Except.ok none :=
  claim_C10_empty_search dummyClient rfl

/-! ### The dashboard table-reference parser -/

/-- Character class of the database group: letters, digits, Python
whitespace. -/
def dashClassA (c : Char) : Bool := c.isAlpha || c.isDigit || isPySpace c

/-- Character class of the schema and name groups: letters, Python
whitespace. -/
def dashClassB (c : Char) : Bool := c.isAlpha || isPySpace c

/-- The dollar anchor: at the end, or just before one final newline. -/
def endDollar : List Char → Bool
  | [] => true
  | ['\n'] => true
  | _ => false

/-- The tail of the bracketed grammar after the closing parenthesis:
a slash, a bracketed greedy schema run, a dot, a bracketed greedy name
run, the anchor; the closing bracket is outside both classes, so each
run is the maximal one. -/
def dashTail (r : List Char) : Option (List Char × List Char) :=
  match r with
  | '/' :: '[' :: r1 =>
    let s := r1.takeWhile dashClassB
    if s.isEmpty then none
    else
      match r1.dropWhile dashClassB with
      | ']' :: '.' :: '[' :: r2 =>
        let n := r2.takeWhile dashClassB
        if n.isEmpty then none
        else
          match r2.dropWhile dashClassB with
          | ']' :: r3 => if endDollar r3 then some (s, n) else none
          | _ => none
      | _ => none
  | _ => none

/-- The greedy dot-all connection group followed by the tail: extension
is preferred, the closing parenthesis is the fallback, so the longest
connection whose remainder completes the match wins. -/
def connSplit : List Char → Option (List Char × List Char × List Char)
  | [] => none
  | c :: rest =>
    match (if c = '\n' then none
           else (connSplit rest).map (fun q => (c :: q.1, q.2.1, q.2.2))) with
    | some q => some q
    | none =>
      match (if c = ')' then dashTail rest else none) with
      | some p => some ([], p.1, p.2)
      | none => none

/-- Whole pattern of `_get_table_details_from_dashboard_metadata`: a
non-empty greedy database run (the opening parenthesis is outside the
class, so the maximal run is forced), a parenthesised connection, and
the bracketed tail. -/
def dashRefMatch (l : List Char) :
    Option (List Char × List Char × List Char × List Char) :=
  let db := l.takeWhile dashClassA
  if db.isEmpty then none
  else
    match l.dropWhile dashClassA with
    | '(' :: r => (connSplit r).map (fun q => (db, q.1, q.2.1, q.2.2))
    | _ => none

/-- Translation of `_get_table_details_from_dashboard_metadata`: the
group dictionary of a match, with the cluster attached when the result
is non-empty; the empty dictionary on a non-matching token. -/
def get_table_details_from_dashboard_metadata (table_details cluster : String) :
    List (String × String) :=
  match dashRefMatch table_details.data with
  | some q =>
    [("database", chStr q.1), ("conn", chStr q.2.1), ("schema", chStr q.2.2.1),
     ("name", chStr q.2.2.2), ("cluster", cluster)]
  | none => []

example : get_table_details_from_dashboard_metadata "Oracle(conn1)/[Sales].[Orders]" "cl" =
    [("database", "Oracle"), ("conn", "conn1"), ("schema", "Sales"),
     ("name", "Orders"), ("cluster", "cl")] := by decide

/-- C9: the token Oracle(conn1)/[Sales].[Orders] parses to database
Oracle, schema Sales, name Orders (the connection group is captured
and discarded by callers), with the caller's cluster attached; every
token the bracketed grammar does not match yields the empty mapping,
to which no cluster is attached. -/
theorem claim_C9_dashboard_ref_grammar :
    (∀ cluster : String,
      get_table_details_from_dashboard_metadata "Oracle(conn1)/[Sales].[Orders]" cluster =
        [("database", "Oracle"), ("conn", "conn1"), ("schema", "Sales"),
         ("name", "Orders"), ("cluster", cluster)]) ∧
    (∀ t cluster : String, dashRefMatch t.data = none →
      get_table_details_from_dashboard_metadata t cluster = []) := by
  constructor
  · intro cluster
    have hm : dashRefMatch ("Oracle(conn1)/[Sales].[Orders]").data =
        some ("Oracle".data, "conn1".data, "Sales".data, "Orders".data) := by decide
    simp only [get_table_details_from_dashboard_metadata, hm]
    rfl
  · intro t cluster hm
    simp only [get_table_details_from_dashboard_metadata, hm]

/-- Witness for C9 on a token outside the grammar. -/
theorem claim_C9_witness :
    get_table_details_from_dashboard_metadata "garbage token" "cl2" = [] :=
  claim_C9_dashboard_ref_grammar.2 "garbage token" "cl2" (by decide)

/-! ### The dashboard canonicalizer -/

/-- Python `d.get(k)`: the value or None. -/
def dictGetOpt (d : List (String × String)) (k : String) : Option String :=
  (d.find? (fun kv => kv.1 = k)).map (fun kv => kv.2)

/-- Python `d.get(k, default)` for a string default. -/
def dictGetD (d : List (String × String)) (k deflt : String) : String :=
  match dictGetOpt d k with
  | some v => v
  | none => deflt

/-- The display-name pattern `.*Dashboard Metadata$`. -/
def dashboardMetadataMatch (s : String) : Bool :=
  matchesSuffixDollar ("Dashboard Metadata").data s

/-- The display-name pattern `.*Workbook Metadata$`. -/
def workbookMetadataMatch (s : String) : Bool :=
  matchesSuffixDollar ("Workbook Metadata").data s

/-- The canonical dashboard record populated by `get_dashboard`; the
product and the recent view count keep the value-or-integer-default
shape of the source, and several fields are permanent placeholders. -/
structure DashboardDetail where
  uri : String
  cluster : String
  group_name : Option String
  group_url : String
  product : Sum String Nat
  name : Option String
  url : String
  description : String
  created_timestamp : Nat
  updated_timestamp : Nat
  last_successful_run_timestamp : Nat
  last_run_timestamp : Nat
  last_run_state : String
  recent_view_count : Sum String Nat
  owners : List UserM
  frequent_users : List UserM
  tables : List (List (String × String))
deriving DecidableEq, Repr

/-- Translation of `get_dashboard`: retrieve the entry by its
catalog-native identifier, extract the Dashboard Metadata and Workbook
Metadata maps from its tags, read the owners, splice resource-name
segments one and three into the cluster, and parse each comma-separated
upstream-tables token with the dashboard table-reference grammar,
attaching the cluster to each parsed reference. -/
def get_dashboard (c : Client) (id : String) : Except PyErr DashboardDetail := do
  let entry ← c.get_entry id
  let dashboard_metadata ← get_resource_metadata c entry.name dashboardMetadataMatch
  let workbook_metadata ← get_resource_metadata c entry.name workbookMetadataMatch
  let relative_resource_name_parts := pySplit entry.name "/"
  let name := dictGetOpt dashboard_metadata "workbook_name"
  let description := entry.description
  let owners ← get_resource_owners c entry.name
  let p1 ← pyIdx relative_resource_name_parts 1
  let p3 ← pyIdx relative_resource_name_parts 3
  let cluster := p1 ++ "__" ++ p3
  let group_name := dictGetOpt dashboard_metadata "site_name"
  let product : Sum String Nat :=
    if entry.user_specified_system = "" then Sum.inr entry.integrated_system
    else Sum.inl entry.user_specified_system
  let last_run_state := dictGetD dashboard_metadata "last_run_state" "Unknown"
  let recent_view_count : Sum String Nat :=
    match dictGetOpt dashboard_metadata "recent_view_count" with
    | some v => Sum.inl v
    | none => Sum.inr 0
  let tables := (pySplit (dictGetD workbook_metadata "upstream_tables" "") ",").map
    (fun t => get_table_details_from_dashboard_metadata t cluster)
  Except.ok (DashboardDetail.mk entry.name cluster group_name "" product name ""
    description entry.create_seconds entry.update_seconds 0 0 last_run_state
    recent_view_count owners [] tables)

/-- C7: when the bounded search yields at least one hit, a failing
re-resolution of that hit is absorbed and get_latest_updated_ts
returns zero, while a successful one returns the update seconds; and
the absorption is scoped to this one operation — failures propagate
unmodified out of every other implemented public operation: a resolver
failure out of get_table, get_table_description and
put_table_description, a search-projection failure out of
get_popular_tables, and an entry or tag-listing failure out of
get_dashboard; none of them retries (the remaining public operations
are inert stubs). -/
theorem claim_C7_degradation :
    (∀ (c : Client) (r : SearchResult) (rs : List SearchResult),
      c.search_catalog "*" (some "last_modified_timestamp desc") = r :: rs →
      ((∀ err : PyErr, c.get_entry r.relative_resource_name = Except.error err →
          get_latest_updated_ts c = Except.ok (some 0)) ∧
       (∀ e : Entry, c.get_entry r.relative_resource_name = Except.ok e →
          get_latest_updated_ts c = Except.ok (some e.update_seconds)))) ∧
    (∀ (c : Client) (uri : String) (err : PyErr),
      get_table_entry c uri = Except.error err →
      get_table c uri = Except.error err ∧
      get_table_description c uri = Except.error err ∧
      (∀ d : String, put_table_description c uri d = Except.error err)) ∧
    (∀ (c : Client) (N : Nat) (err : PyErr),
      basic_search c (some "table") N none = Except.error err →
      get_popular_tables c N = Except.error err) ∧
    (∀ (c : Client) (id : String) (err : PyErr),
      c.get_entry id = Except.error err →
      get_dashboard c id = Except.error err) ∧
    (∀ (c : Client) (id : String) (entry : Entry) (err : PyErr),
      c.get_entry id = Except.ok entry →
      c.list_tags entry.name = Except.error err →
      get_dashboard c id = Except.error err) := by
  refine ⟨?_, ?_, ?_, ?_, ?_⟩
  · intro c r rs hs
    have hloop : ∃ k, basic_search_loop none 1 1 (r :: rs) =
        Except.ok (2, [SearchItem.raw r], k) := by
      cases rs with
      | nil => exact ⟨1, rfl⟩
      | cons x xs => exact ⟨2, rfl⟩
    obtain ⟨k, hk⟩ := hloop
    constructor
    · intro err herr
      simp only [get_latest_updated_ts, basic_search, hs, hk, herr, except_bind_ok]
    · intro e he
      simp only [get_latest_updated_ts, basic_search, hs, hk, he, except_bind_ok]
  · intro c uri err h
    refine ⟨?_, ?_, ?_⟩
    · simp only [get_table, h, except_bind_error]
    · simp only [get_table_description, h, except_bind_error]
    · intro d
      simp only [put_table_description, h, except_bind_error]
  · intro c N err h
    simp only [get_popular_tables, h, except_bind_error]
  · intro c id err h
    simp only [get_dashboard, h, except_bind_error]
  · intro c id entry err hok hlt
    simp only [get_dashboard, hok, except_bind_ok, get_resource_metadata, hlt,
      except_bind_error]

/-- A client with one search hit whose re-resolution fails. -/
def failingGetEntryClient : Client :=
  Client.mk (fun _ _ => [mkSearchHit "t0"]) (fun _ => Except.ok dummyEntry)
    (fun _ => Except.error (PyErr.clientError "backend down"))
    (fun p l g e => p ++ "/" ++ l ++ "/" ++ g ++ "/" ++ e)
    (fun _ => Except.ok []) (fun _ => Except.ok ())

/-- A client whose single table hit carries an unsupported integer
system code, so its projection fails. -/
def badSystemClient : Client :=
  Client.mk
    (fun _ _ => [SearchResult.mk "x/db/t"
      "projects/p/locations/us/entryGroups/g/entries/t" "" 5])
    (fun _ => Except.ok dummyEntry) (fun _ => Except.ok dummyEntry)
    (fun p l g e => p ++ "/" ++ l ++ "/" ++ g ++ "/" ++ e)
    (fun _ => Except.ok []) (fun _ => Except.ok ())

/-- Witness for C7: the probe degrades to zero on the client whose
re-resolution fails, while the same failure kinds propagate unmodified
out of get_table_description, get_popular_tables and get_dashboard. -/
theorem claim_C7_witness :
    get_latest_updated_ts failingGetEntryClient = Except.ok (some 0) ∧
    get_table_description failingGetEntryClient "xyz" =
      Except.error (PyErr.keyError "entity") ∧
    get_popular_tables badSystemClient 1 =
      Except.error PyErr.notImplementedError ∧
    get_dashboard failingGetEntryClient "dash1" =
      Except.error (PyErr.clientError "backend down") := by
  refine ⟨?_, ?_, ?_, ?_⟩
  · exact (claim_C7_degradation.1 failingGetEntryClient (mkSearchHit "t0") [] rfl).1
      (PyErr.clientError "backend down") rfl
  · exact (claim_C7_degradation.2.1 failingGetEntryClient "xyz"
      (PyErr.keyError "entity") (by rfl)).2.1
  · exact claim_C7_degradation.2.2.1 badSystemClient 1
      PyErr.notImplementedError (by rfl)
  · exact claim_C7_degradation.2.2.2.1 failingGetEntryClient "dash1"
      (PyErr.clientError "backend down") rfl

end GCPDataCatalog
